import Mathlib

/-!
Verification of the YFinance ingestion-and-storage pipeline.

Shallow embedding of:
- `services/storage_service.py` (`upsert_ohlcv_from_df`, `query_ohlcv`),
- `services/stock_service.py` (`fetch_historical_ohlcv`: retry loop and
  normalization),
- `jobs/fetch_jobs.py` (`job_fetch_and_store`).

Modelling conventions: pandas DataFrames are lists of association-list rows
together with a column list; SQL cell values are an inductive `Cell`; the
database is explicit state (`DB`) holding the `ohlcv` table, the set of
temporary staging tables currently existing, an availability flag for the
external engine, and a counter of connections opened.  Python code that
catches every exception is embedded as a total function; a raised-and-caught
SQL error is an `Option.none` result of the step that raises it.  Prices and
volumes are `Rat` (they are only passed through, never computed with).
Datetimes are `Nat` timestamps.
-/

namespace YFin

/-- Python's `str.upper()` on the ASCII symbols this system handles:
uppercase every character. -/
def pyUpper (s : String) : String := String.mk (s.data.map Char.toUpper)

/-- A SQL / DataFrame cell value. -/
inductive Cell where
  | null : Cell
  | num (q : Rat) : Cell
  | str (s : String) : Cell
  | time (t : Nat) : Cell
deriving DecidableEq

/-- One DataFrame / staging-table row: column name to cell value. -/
abbrev DRow := List (String × Cell)

/-- Look a column up in a row; `none` models an absent column. -/
def getCell (r : DRow) (c : String) : Option Cell :=
  (r.find? (fun p => p.1 == c)).map Prod.snd

/-- A pandas DataFrame as handed to `df.to_sql`: its column list and rows. -/
structure DataFrame where
  cols : List String
  rows : List DRow
deriving DecidableEq

/-- A row of the `ohlcv` table, per the `OHLCV` model in `models.py`:
primary key (`symbol`, `dt`), nullable numeric price/volume columns,
nullable `source`, `created_at`, `updated_at`. -/
structure StoredRow where
  symbol : String
  dt : Nat
  open_ : Option Rat
  high : Option Rat
  low : Option Rat
  close : Option Rat
  volume : Option Rat
  source : Option String
  created_at : Option Nat
  updated_at : Option Nat
deriving DecidableEq

/-- Database state: the `ohlcv` table, the staging (temporary) tables that
currently exist, whether the engine is reachable, and how many connections
have been opened. -/
structure DB where
  ohlcv : List StoredRow
  temps : List DataFrame
  dbUp : Bool
  connCount : Nat
deriving DecidableEq

/-- The PRIMARY KEY (`symbol`, `dt`) constraint of `models.py`: no two rows
of the table share both fields. -/
def KeysDistinct (tbl : List StoredRow) : Prop :=
  tbl.Pairwise (fun a b => a.symbol = b.symbol → a.dt ≠ b.dt)

instance (tbl : List StoredRow) : Decidable (KeysDistinct tbl) :=
  inferInstanceAs
    (Decidable (tbl.Pairwise
      (fun a b : StoredRow => a.symbol = b.symbol → a.dt ≠ b.dt)))

/-- Read a nullable numeric column value; a missing column or a value
of the wrong type is a SQL error (`none`). -/
def readNum (c : Option Cell) : Option (Option Rat) :=
  match c with
  | some Cell.null => some none
  | some (Cell.num q) => some (some q)
  | _ => none

/-- Read a nullable string column value. -/
def readOptStr (c : Option Cell) : Option (Option String) :=
  match c with
  | some Cell.null => some none
  | some (Cell.str s) => some (some s)
  | _ => none

/-- Read a nullable datetime column value. -/
def readOptTime (c : Option Cell) : Option (Option Nat) :=
  match c with
  | some Cell.null => some none
  | some (Cell.time t) => some (some t)
  | _ => none

/-- Read a non-null string column value (`symbol` is NOT NULL). -/
def readStr (c : Option Cell) : Option String :=
  match c with
  | some (Cell.str s) => some s
  | _ => none

/-- Read a non-null datetime column value (`dt` is NOT NULL). -/
def readTime (c : Option Cell) : Option Nat :=
  match c with
  | some (Cell.time t) => some t
  | _ => none

/-- The ten columns the merge statement in `upsert_ohlcv_from_df` selects
from the staging table. -/
def mergeCols : List String :=
  ["symbol", "dt", "open", "high", "low", "close", "volume",
   "source", "created_at", "updated_at"]

/-- Read one staging-table row at the ten selected columns; `none` is the
SQL error raised when a column is absent or a value has the wrong type. -/
def readRow (r : DRow) : Option StoredRow := do
  let symbol ← readStr (getCell r "symbol")
  let dt ← readTime (getCell r "dt")
  let o ← readNum (getCell r "open")
  let h ← readNum (getCell r "high")
  let l ← readNum (getCell r "low")
  let c ← readNum (getCell r "close")
  let v ← readNum (getCell r "volume")
  let src ← readOptStr (getCell r "source")
  let ca ← readOptTime (getCell r "created_at")
  let ua ← readOptTime (getCell r "updated_at")
  some { symbol := symbol, dt := dt, open_ := o, high := h, low := l,
         close := c, volume := v, source := src, created_at := ca,
         updated_at := ua }

/-- One row of `INSERT ... ON DUPLICATE KEY UPDATE`: insert if the
(`symbol`, `dt`) key is absent, otherwise update exactly `open`, `high`,
`low`, `close`, `volume` and `updated_at` of the matching row. -/
def upsertRow (tbl : List StoredRow) (r : StoredRow) : List StoredRow :=
  if tbl.any (fun s => s.symbol == r.symbol && s.dt == r.dt) then
    tbl.map (fun s =>
      if s.symbol == r.symbol && s.dt == r.dt then
        { s with open_ := r.open_, high := r.high, low := r.low,
                 close := r.close, volume := r.volume,
                 updated_at := r.updated_at }
      else s)
  else tbl ++ [r]

/-- The merge statement of `upsert_ohlcv_from_df`: selects the ten
`mergeCols` from the staging table and merges row by row into `ohlcv`.
`none` is the SQL error raised when the staging table is missing one of
the selected columns or holds an ill-typed value. -/
def mergeStep (tbl : List StoredRow) (df : DataFrame) : Option (List StoredRow) :=
  if mergeCols.all (fun c => df.cols.contains c) then
    (df.rows.mapM readRow).map (fun rs => rs.foldl upsertRow tbl)
  else
    none

/-- `storage_service.upsert_ohlcv_from_df`.  Empty input returns 0 before
any engine access.  Otherwise: `records = df.to_dict(orient='records')` is
enriched with `created_at`, `updated_at`, `source` (this list is used only
for its length in the return value); a connection is opened; `df.to_sql`
creates the staging table with exactly `df`'s own columns; the merge
statement runs; on success the staging table is dropped and
`len(records)` returned; any raised error is caught by the enclosing
except-block, which returns 0 — the staging table, if already created, is
not dropped on that path. -/
def upsert_ohlcv_from_df (st : DB) (df : DataFrame) (now : Nat) : Nat × DB :=
  if df.rows.isEmpty then (0, st)
  else
    let records := df.rows.map (fun r =>
      r ++ [("created_at", Cell.time now), ("updated_at", Cell.time now),
            ("source", Cell.str "yfinance")])
    if st.dbUp then
      let st1 : DB := { st with connCount := st.connCount + 1,
                                temps := st.temps ++ [df] }
      match mergeStep st1.ohlcv df with
      | some tbl =>
        (records.length, { st1 with ohlcv := tbl, temps := st.temps })
      | none =>
        (0, st1)
    else
      (0, { st with connCount := st.connCount + 1 })

/-- Descending-datetime comparison used by `ORDER BY dt DESC`. -/
def dtGe (a b : StoredRow) : Prop := b.dt ≤ a.dt

instance : DecidableRel dtGe :=
  fun a b => inferInstanceAs (Decidable (b.dt ≤ a.dt))

instance : IsTotal StoredRow dtGe :=
  ⟨fun a b => Nat.le_total b.dt a.dt⟩

instance : IsTrans StoredRow dtGe :=
  ⟨fun _ _ _ h1 h2 => Nat.le_trans h2 h1⟩

/-- A row of the list returned by `query_ohlcv` (the dict built per row).
`dt` is rendered by `strftime` from a NOT NULL datetime (datetime objects
are always truthy), so it is kept as the timestamp itself. -/
structure OutRow where
  symbol : String
  dt : Nat
  open_ : Option Rat
  high : Option Rat
  low : Option Rat
  close : Option Rat
  volume : Option Rat
  source : Option String
deriving DecidableEq

/-- `float(x) if x else None`: Python truthiness maps the float `0.0`
to `None`, exactly like a SQL NULL. -/
def truthyFloat (x : Option Rat) : Option Rat :=
  match x with
  | none => none
  | some q => if q = 0 then none else some q

/-- The dict built for one fetched row inside `query_ohlcv`. -/
def rowToDict (r : StoredRow) : OutRow :=
  { symbol := r.symbol, dt := r.dt,
    open_ := truthyFloat r.open_, high := truthyFloat r.high,
    low := truthyFloat r.low, close := truthyFloat r.close,
    volume := truthyFloat r.volume, source := r.source }

/-- `storage_service.query_ohlcv`: `SELECT ... WHERE symbol = :symbol
ORDER BY dt DESC LIMIT :limit`, rows rendered to dicts; any engine error
is caught and an empty list returned. -/
def query_ohlcv (st : DB) (symbol : String) (limit : Nat) : List OutRow :=
  if st.dbUp then
    ((((st.ohlcv.filter (fun r => r.symbol == pyUpper symbol)).insertionSort
        dtGe).take limit).map rowToDict)
  else []

/-- A raw provider cell: a numeric value, or a value `pd.to_numeric`
cannot coerce (which `errors='coerce'` turns into NaN). -/
inductive RawVal where
  | num (q : Rat) : RawVal
  | bad : RawVal
deriving DecidableEq

/-- One raw provider row after column selection and renaming: the bar
timestamp and the five price/volume fields, each possibly missing
(`none` models NaN / NaT). -/
structure RawRow where
  dt : Option Nat
  open_ : Option RawVal
  high : Option RawVal
  low : Option RawVal
  close : Option RawVal
  volume : Option RawVal
deriving DecidableEq

/-- A row after `pd.to_numeric(..., errors='coerce')` on the five
price/volume fields. -/
structure NumRow where
  dt : Option Nat
  open_ : Option Rat
  high : Option Rat
  low : Option Rat
  close : Option Rat
  volume : Option Rat
deriving DecidableEq

/-- `pd.to_numeric(x, errors='coerce')` on one cell: numbers pass
through, anything else becomes NaN (`none`). -/
def coerceVal (x : Option RawVal) : Option Rat :=
  match x with
  | some (RawVal.num q) => some q
  | _ => none

/-- The first `df.dropna()` condition: every field present. -/
def rawComplete (r : RawRow) : Bool :=
  r.dt.isSome && r.open_.isSome && r.high.isSome && r.low.isSome &&
    r.close.isSome && r.volume.isSome

/-- Coercion of the five price/volume fields of one row. -/
def coerceRow (r : RawRow) : NumRow :=
  { dt := r.dt, open_ := coerceVal r.open_, high := coerceVal r.high,
    low := coerceVal r.low, close := coerceVal r.close,
    volume := coerceVal r.volume }

/-- The second `df.dropna()` condition: every field still present after
coercion. -/
def numComplete (r : NumRow) : Bool :=
  r.dt.isSome && r.open_.isSome && r.high.isSome && r.low.isSome &&
    r.close.isSome && r.volume.isSome

/-- A normalized bar as returned by `fetch_historical_ohlcv`
(columns `symbol, dt, open, high, low, close, volume`). -/
structure BarRow where
  symbol : String
  dt : Nat
  open_ : Rat
  high : Rat
  low : Rat
  close : Rat
  volume : Rat
deriving DecidableEq

/-- View a fully-populated numeric row as a `BarRow` with the canonical
uppercase symbol (after the two dropna passes every field is present). -/
def extractBar (symbol : String) (r : NumRow) : Option BarRow :=
  match r.dt, r.open_, r.high, r.low, r.close, r.volume with
  | some t, some o, some h, some l, some c, some v =>
    some { symbol := pyUpper symbol, dt := t, open_ := o, high := h,
           low := l, close := c, volume := v }
  | _, _, _, _, _, _ => none

/-- The normalization pipeline of `fetch_historical_ohlcv` (lines 44-64):
select/rename columns, set `symbol = symbol.upper()`, `dropna()`,
`to_numeric(errors='coerce')` on the five fields, `dropna()` again. -/
def normalize (symbol : String) (raw : List RawRow) : List BarRow :=
  (((raw.filter rawComplete).map coerceRow).filter numComplete).filterMap
    (extractBar symbol)

/-- Spec-side characterization of the Normalizer (for comparison with the
pipeline `normalize`): a row is kept exactly when its timestamp is present
and each of the five price/volume fields is present and coercible to a
number, the kept rows appearing in input order with the symbol forced
uppercase. -/
def validBar (symbol : String) (r : RawRow) : Option BarRow :=
  match r.dt, coerceVal r.open_, coerceVal r.high, coerceVal r.low,
        coerceVal r.close, coerceVal r.volume with
  | some t, some o, some h, some l, some c, some v =>
    some { symbol := pyUpper symbol, dt := t, open_ := o, high := h,
           low := l, close := c, volume := v }
  | _, _, _, _, _, _ => none

/-- Outcome of one `yf.download` attempt: a raised transport error, or a
successful response with its rows. -/
inductive Attempt where
  | err : Attempt
  | ok (rows : List RawRow) : Attempt

/-- `max_retries = 3` in `fetch_historical_ohlcv`. -/
def max_retries : Nat := 3

/-- The retry loop of `fetch_historical_ohlcv`: try the download; on
success stop; on a raised error return empty if this was the last
attempt, otherwise `time.sleep(2 ** attempt)` and retry.  Returns the
number of attempts made, the sleeps performed between attempts (in
order), and the downloaded rows (`none` when every attempt failed). -/
def download_with_retry (provider : Nat → Attempt) :
    Nat → Nat → Nat × List Nat × Option (List RawRow)
  | _, 0 => (0, [], none)
  | attempt, r + 1 =>
    match provider attempt with
    | Attempt.ok rows => (1, [], some rows)
    | Attempt.err =>
      if r = 0 then (1, [], none)
      else
        let rest := download_with_retry provider (attempt + 1) r
        (rest.1 + 1, 2 ^ attempt :: rest.2.1, rest.2.2)

/-- Result of `fetch_historical_ohlcv` together with its observable retry
trace. -/
structure FetchResult where
  attempts : Nat
  sleeps : List Nat
  bars : List BarRow
deriving DecidableEq

/-- `stock_service.fetch_historical_ohlcv`: retry loop, then the empty
check and normalization; every failure path returns an empty frame
rather than raising. -/
def fetch_historical_ohlcv (provider : Nat → Attempt) (symbol : String) :
    FetchResult :=
  match download_with_retry provider 0 max_retries with
  | (n, sleeps, none) => { attempts := n, sleeps := sleeps, bars := [] }
  | (n, sleeps, some rows) =>
    { attempts := n, sleeps := sleeps, bars := normalize symbol rows }

/-- The column list of a normalized frame as returned by
`fetch_historical_ohlcv`. -/
def barCols : List String :=
  ["symbol", "dt", "open", "high", "low", "close", "volume"]

/-- One normalized bar as a DataFrame row. -/
def barToDRow (b : BarRow) : DRow :=
  [("symbol", Cell.str b.symbol), ("dt", Cell.time b.dt),
   ("open", Cell.num b.open_), ("high", Cell.num b.high),
   ("low", Cell.num b.low), ("close", Cell.num b.close),
   ("volume", Cell.num b.volume)]

/-- The normalized frame handed from the fetcher to the upsert: exactly
the seven bar columns. -/
def toFrame (bars : List BarRow) : DataFrame :=
  { cols := barCols, rows := bars.map barToDRow }

/-- The per-symbol fetch outcome inside `job_fetch_and_store`: the fetched
frame, `none` when it is empty. -/
def fetchBatch (provider : String → Nat → Attempt) (s : String) :
    Option (List BarRow) :=
  let bars := (fetch_historical_ohlcv (provider s) s).bars
  if bars.isEmpty then none else some bars

/-- One iteration of the symbol loop in `job_fetch_and_store`:
fetch; if the frame is non-empty, upsert it; log otherwise.  Returns the
store state afterwards and the batch the upsert stage was invoked with
(`none` when the fetch produced nothing). -/
def processSymbol (provider : String → Nat → Attempt) (s : String)
    (st : DB) (now : Nat) : DB × Option (List BarRow) :=
  match fetchBatch provider s with
  | none => (st, none)
  | some bars => ((upsert_ohlcv_from_df st (toFrame bars) now).2, some bars)

/-- `jobs.fetch_jobs.job_fetch_and_store`: process the symbols
sequentially in the given order, each inside its own try/except; returns
the final store state and the per-symbol trace, in processing order. -/
def job_fetch_and_store (provider : String → Nat → Attempt)
    (symbols : List String) (st : DB) (now : Nat) :
    DB × List (String × Option (List BarRow)) :=
  match symbols with
  | [] => (st, [])
  | s :: rest =>
    let step := processSymbol provider s st now
    let tail := job_fetch_and_store provider rest step.1 now
    (tail.1, (s, step.2) :: tail.2)

/-! Concrete data used in counterexamples and witnesses. -/

/-- A sample normalized bar. -/
def bar0 : BarRow :=
  { symbol := "AAPL", dt := 1, open_ := 10, high := 12, low := 9,
    close := 11, volume := 1000 }

/-- A fresh, reachable, empty database. -/
def freshDB : DB := { ohlcv := [], temps := [], dbUp := true, connCount := 0 }

/-- A stored row with key ("AAPL", 1), as a first upsert was meant to
leave it. -/
def storedAAPL : StoredRow :=
  { symbol := "AAPL", dt := 1, open_ := some 10, high := some 12,
    low := some 9, close := some 11, volume := some 1000,
    source := some "yfinance", created_at := some 5, updated_at := some 5 }

/-- A later bar for the same ("AAPL", 1) key with different prices. -/
def bar1 : BarRow :=
  { symbol := "AAPL", dt := 1, open_ := 20, high := 22, low := 19,
    close := 21, volume := 2000 }

/-- A staging-table row that does carry all ten merge columns. -/
def fullDRow : DRow :=
  [("symbol", Cell.str "AAPL"), ("dt", Cell.time 1),
   ("open", Cell.num 10), ("high", Cell.num 12), ("low", Cell.num 9),
   ("close", Cell.num 11), ("volume", Cell.num 1000),
   ("source", Cell.str "yfinance"), ("created_at", Cell.time 5),
   ("updated_at", Cell.time 5)]

/-- A frame carrying all ten merge columns (the shape the merge statement
expects, which no caller in the repository actually produces). -/
def fullFrame : DataFrame := { cols := mergeCols, rows := [fullDRow] }

/-- A stored bar for symbol "X" at timestamp `t`. -/
def rowX (t : Nat) : StoredRow :=
  { symbol := "X", dt := t, open_ := some 1, high := some 2, low := some 1,
    close := some 2, volume := some 3, source := some "yfinance",
    created_at := some 0, updated_at := some 0 }

/-- A store holding bars for "X" at timestamps 1 < 2 < 3. -/
def exampleStore : DB :=
  { ohlcv := [rowX 1, rowX 2, rowX 3], temps := [], dbUp := true,
    connCount := 0 }

/-- A provider whose every attempt raises a transport error. -/
def pErr : Nat → Attempt := fun _ => Attempt.err

/-- A fully valid raw provider row at timestamp `t`. -/
def goodRaw (t : Nat) : RawRow :=
  { dt := some t, open_ := some (RawVal.num 1), high := some (RawVal.num 2),
    low := some (RawVal.num 1), close := some (RawVal.num 2),
    volume := some (RawVal.num 3) }

/-- A raw row with a missing `close` value. -/
def rawNoClose : RawRow :=
  { dt := some 100, open_ := some (RawVal.num 1), high := some (RawVal.num 2),
    low := some (RawVal.num 1), close := none,
    volume := some (RawVal.num 3) }

/-- A raw row whose `close` value cannot be coerced to a number. -/
def rawBadClose : RawRow :=
  { dt := some 200, open_ := some (RawVal.num 1), high := some (RawVal.num 2),
    low := some (RawVal.num 1), close := some RawVal.bad,
    volume := some (RawVal.num 3) }

/-- Ten raw rows of which exactly two are invalid. -/
def tenRaw : List RawRow :=
  [goodRaw 1, goodRaw 2, rawNoClose, goodRaw 3, rawBadClose,
   goodRaw 4, goodRaw 5, goodRaw 6, goodRaw 7, goodRaw 8]

/-- An environment where symbol "B" fails every download attempt and every
other symbol succeeds with one valid row. -/
def exampleEnv (s : String) : Nat → Attempt :=
  fun _ => if s = "B" then Attempt.err else Attempt.ok [goodRaw 1]

/-- A store holding one "Z" row whose price/volume values are all the
genuine float `0.0`. -/
def zeroStore : DB :=
  { ohlcv := [{ symbol := "Z", dt := 1, open_ := some 0, high := some 0,
                low := some 0, close := some 0, volume := some 0,
                source := some "yfinance", created_at := some 0,
                updated_at := some 0 }],
    temps := [], dbUp := true, connCount := 0 }

/-- The same store except the price/volume values are stored NULL. -/
def nullStore : DB :=
  { ohlcv := [{ symbol := "Z", dt := 1, open_ := none, high := none,
                low := none, close := none, volume := none,
                source := some "yfinance", created_at := some 0,
                updated_at := some 0 }],
    temps := [], dbUp := true, connCount := 0 }

/-- A store already holding the ("AAPL", 1) row. -/
def dbWithAAPL : DB :=
  { ohlcv := [storedAAPL], temps := [], dbUp := true, connCount := 0 }

/-- A database whose engine is unreachable. -/
def downDB : DB := { ohlcv := [], temps := [], dbUp := false, connCount := 0 }

/-- A provider whose first attempt succeeds with an empty response. -/
def pEmpty : Nat → Attempt := fun _ => Attempt.ok []

/-- The bar `normalize` produces from `goodRaw 1` for symbol `s`
(already uppercase). -/
def upBar (s : String) : BarRow :=
  { symbol := s, dt := 1, open_ := 1, high := 2, low := 1, close := 2,
    volume := 3 }

/-! Helper lemmas. -/

/-- `truthyFloat` yields `None` exactly on a NULL or a zero value. -/
theorem truthyFloat_eq_none (x : Option Rat) :
    truthyFloat x = none ↔ (x = none ∨ x = some 0) := by
  cases x with
  | none => simp [truthyFloat]
  | some q =>
    by_cases h : q = 0 <;> simp [truthyFloat, h]

/-! ## C9 — empty input -/

/-- C9: upserting an empty batch returns 0 and touches nothing: the store
state (table, staging tables, connection counter) is returned exactly as
it was, before any engine access. -/
theorem upsert_empty_no_store_access :
    ∀ (st : DB) (df : DataFrame) (now : Nat), df.rows = [] →
      upsert_ohlcv_from_df st df now = (0, st) := by
  intro st df now h
  simp [upsert_ohlcv_from_df, h]

/-- Witness for C9 at a concrete empty frame and store. -/
theorem upsert_empty_no_store_access_witness :
    ({ cols := barCols, rows := [] } : DataFrame).rows = [] ∧
      upsert_ohlcv_from_df freshDB { cols := barCols, rows := [] } 3
        = (0, freshDB) :=
  ⟨rfl, upsert_empty_no_store_access freshDB { cols := barCols, rows := [] } 3 rfl⟩

/-! ## C1 — idempotency (code bug) -/

/-- C1, evaluated at the failing input: upserting one normalized bar into
a fresh reachable store — once and then a second time — returns 0 both
times and leaves the `ohlcv` table empty both times.  The staged frame
carries only the seven normalized columns, the merge statement selects
`source`, `created_at`, `updated_at` as well, so the merge step errors
and no row is ever inserted: there is no stored row whose `updatedAt`
could reflect the later call. -/
theorem upsert_twice_never_persists :
    (upsert_ohlcv_from_df freshDB (toFrame [bar0]) 10).1 = 0 ∧
    ((upsert_ohlcv_from_df freshDB (toFrame [bar0]) 10).2).ohlcv = [] ∧
    (upsert_ohlcv_from_df
        (upsert_ohlcv_from_df freshDB (toFrame [bar0]) 10).2
        (toFrame [bar0]) 20).1 = 0 ∧
    ((upsert_ohlcv_from_df
        (upsert_ohlcv_from_df freshDB (toFrame [bar0]) 10).2
        (toFrame [bar0]) 20).2).ohlcv = [] := by
  refine ⟨?_, ?_, ?_, ?_⟩ <;> decide

/-! ## C2 — conflict overwrite (code bug) -/

/-- C2, evaluated at the failing input: with ("AAPL", 1) already stored,
upserting a bar for the same key with different prices leaves the stored
row byte-for-byte unchanged — `open/high/low/close/volume` and
`updated_at` are NOT overwritten, because the merge step errors on the
staging table's missing columns — and the call reports 0 rows. -/
theorem upsert_conflict_leaves_row_untouched :
    (upsert_ohlcv_from_df dbWithAAPL (toFrame [bar1]) 9).1 = 0 ∧
    ((upsert_ohlcv_from_df dbWithAAPL (toFrame [bar1]) 9).2).ohlcv
      = [storedAAPL] := by
  refine ⟨?_, ?_⟩ <;> decide

/-! ## C3 — staging release -/

/-- Counterexample to C3: an execution of the upsert with a non-empty
batch on which the merge step fails (here: any normalized batch) returns
with the temporary staging table still existing — the staging area is NOT
released on this exit path. -/
theorem staging_not_released_on_merge_failure :
    freshDB.temps = [] ∧
    mergeStep freshDB.ohlcv (toFrame [bar0]) = none ∧
    ((upsert_ohlcv_from_df freshDB (toFrame [bar0]) 10).2).temps
      = [toFrame [bar0]] := by
  refine ⟨rfl, ?_, ?_⟩ <;> decide

/-- C3 as amended: on a non-empty batch with a reachable engine, the
staging table is dropped before return exactly when the merge step
succeeds; when the merge step fails, the temporary table is not dropped
and survives the call. -/
theorem staging_release_depends_on_merge_success :
    ∀ (st : DB) (df : DataFrame) (now : Nat),
      df.rows ≠ [] → st.dbUp = true →
      (((mergeStep st.ohlcv df).isSome = true →
          ((upsert_ohlcv_from_df st df now).2).temps = st.temps) ∧
       (mergeStep st.ohlcv df = none →
          ((upsert_ohlcv_from_df st df now).2).temps = st.temps ++ [df])) := by
  intro st df now hne hdb
  have he : df.rows.isEmpty = false := by
    cases hrows : df.rows <;> simp_all [List.isEmpty]
  constructor
  · intro hm
    obtain ⟨tbl, htbl⟩ := Option.isSome_iff_exists.mp hm
    simp [upsert_ohlcv_from_df, he, hdb, htbl]
  · intro hm
    simp [upsert_ohlcv_from_df, he, hdb, hm]

/-- Witness for the amended C3, exercising both branches: the failing
merge of a seven-column normalized frame leaves the staging table behind,
and the succeeding merge of a ten-column frame releases it. -/
theorem staging_release_depends_on_merge_success_witness :
    (mergeStep freshDB.ohlcv (toFrame [bar1]) = none ∧
       ((upsert_ohlcv_from_df freshDB (toFrame [bar1]) 10).2).temps
         = freshDB.temps ++ [toFrame [bar1]]) ∧
    ((mergeStep freshDB.ohlcv fullFrame).isSome = true ∧
       ((upsert_ohlcv_from_df freshDB fullFrame 10).2).temps
         = freshDB.temps) :=
  ⟨⟨by decide,
    (staging_release_depends_on_merge_success freshDB (toFrame [bar1]) 10
      (by decide) rfl).2 (by decide)⟩,
   ⟨by decide,
    (staging_release_depends_on_merge_success freshDB fullFrame 10
      (by decide) rfl).1 (by decide)⟩⟩

/-! ## C4 — degraded count on failure, row count on success -/

/-- C4: the upsert never raises (it is a total function); whenever the
engine is unreachable or the merge step fails it returns 0 processed
rows, and whenever the merge step succeeds it returns the number of
input rows attempted (`len(records)` = the batch size), regardless of
how many stored values actually changed. -/
theorem upsert_failure_zero_success_counts_rows :
    ∀ (st : DB) (df : DataFrame) (now : Nat),
      (st.dbUp = false → (upsert_ohlcv_from_df st df now).1 = 0) ∧
      (df.rows ≠ [] → st.dbUp = true → mergeStep st.ohlcv df = none →
        (upsert_ohlcv_from_df st df now).1 = 0) ∧
      (df.rows ≠ [] → st.dbUp = true → (mergeStep st.ohlcv df).isSome = true →
        (upsert_ohlcv_from_df st df now).1 = df.rows.length) := by
  intro st df now
  refine ⟨?_, ?_, ?_⟩
  · intro hdb
    by_cases he : df.rows.isEmpty <;> simp [upsert_ohlcv_from_df, he, hdb]
  · intro hne hdb hm
    have he : df.rows.isEmpty = false := by
      cases hrows : df.rows <;> simp_all [List.isEmpty]
    simp [upsert_ohlcv_from_df, he, hdb, hm]
  · intro hne hdb hm
    have he : df.rows.isEmpty = false := by
      cases hrows : df.rows <;> simp_all [List.isEmpty]
    obtain ⟨tbl, htbl⟩ := Option.isSome_iff_exists.mp hm
    simp [upsert_ohlcv_from_df, he, hdb, htbl]

/-- Witness for C4, exercising the unreachable-engine branch, the
failing-merge branch and the succeeding-merge branch at concrete
inputs. -/
theorem upsert_failure_zero_success_counts_rows_witness :
    (downDB.dbUp = false ∧
       (upsert_ohlcv_from_df downDB fullFrame 7).1 = 0) ∧
    (mergeStep dbWithAAPL.ohlcv (toFrame [bar0]) = none ∧
       (upsert_ohlcv_from_df dbWithAAPL (toFrame [bar0]) 7).1 = 0) ∧
    ((mergeStep freshDB.ohlcv fullFrame).isSome = true ∧
       (upsert_ohlcv_from_df freshDB fullFrame 7).1 = fullFrame.rows.length) :=
  ⟨⟨rfl, (upsert_failure_zero_success_counts_rows downDB fullFrame 7).1 rfl⟩,
   ⟨by decide,
    (upsert_failure_zero_success_counts_rows dbWithAAPL (toFrame [bar0]) 7).2.1
      (by decide) rfl (by decide)⟩,
   ⟨by decide,
    (upsert_failure_zero_success_counts_rows freshDB fullFrame 7).2.2
      (by decide) rfl (by decide)⟩⟩

/-! ## C10 — zero rendered as null -/

/-- C10: in the dicts built by the history query, each price/volume field
comes out `None` exactly when the stored value is NULL or equals 0 (the
`float(x) if x else None` truthiness check), so a store holding genuine
`0.0` values is indistinguishable at the read interface from one holding
NULLs. -/
theorem query_renders_zero_as_null :
    (∀ r : StoredRow,
      ((rowToDict r).open_ = none ↔ (r.open_ = none ∨ r.open_ = some 0)) ∧
      ((rowToDict r).high = none ↔ (r.high = none ∨ r.high = some 0)) ∧
      ((rowToDict r).low = none ↔ (r.low = none ∨ r.low = some 0)) ∧
      ((rowToDict r).close = none ↔ (r.close = none ∨ r.close = some 0)) ∧
      ((rowToDict r).volume = none ↔ (r.volume = none ∨ r.volume = some 0))) ∧
    query_ohlcv zeroStore "Z" 5 = query_ohlcv nullStore "Z" 5 ∧
    query_ohlcv zeroStore "Z" 5 ≠ [] := by
  refine ⟨?_, by decide, by decide⟩
  intro r
  exact ⟨truthyFloat_eq_none r.open_, truthyFloat_eq_none r.high,
         truthyFloat_eq_none r.low, truthyFloat_eq_none r.close,
         truthyFloat_eq_none r.volume⟩

/-! ## C6 — normalization -/

/-- A coercible value was present to begin with. -/
theorem coerceVal_isSome_imp {x : Option RawVal}
    (h : (coerceVal x).isSome = true) : x.isSome = true := by
  cases x with
  | none => simp [coerceVal] at h
  | some y => rfl

/-- A row that survives coercion was complete before coercion. -/
theorem rawComplete_of_numComplete {r : RawRow}
    (h : numComplete (coerceRow r) = true) : rawComplete r = true := by
  simp only [numComplete, coerceRow, Bool.and_eq_true] at h
  simp only [rawComplete, Bool.and_eq_true]
  exact ⟨⟨⟨⟨⟨h.1.1.1.1.1, coerceVal_isSome_imp h.1.1.1.1.2⟩,
      coerceVal_isSome_imp h.1.1.1.2⟩, coerceVal_isSome_imp h.1.1.2⟩,
      coerceVal_isSome_imp h.1.2⟩, coerceVal_isSome_imp h.2⟩

/-- `extractBar` drops exactly the incomplete numeric rows. -/
theorem extractBar_eq_none {sym : String} {q : NumRow}
    (hq : numComplete q = false) : extractBar sym q = none := by
  obtain ⟨d, o, hi, lo, cl, vo⟩ := q
  cases d <;> cases o <;> cases hi <;> cases lo <;> cases cl <;> cases vo <;>
    simp_all [numComplete, extractBar]

/-- `extractBar` keeps every complete numeric row. -/
theorem extractBar_isSome {sym : String} {q : NumRow}
    (hq : numComplete q = true) : (extractBar sym q).isSome = true := by
  obtain ⟨d, o, hi, lo, cl, vo⟩ := q
  cases d <;> cases o <;> cases hi <;> cases lo <;> cases cl <;> cases vo <;>
    simp_all [numComplete, extractBar]

/-- Every bar `extractBar` produces carries the uppercased symbol. -/
theorem extractBar_symbol {sym : String} {q : NumRow} {b : BarRow}
    (h : extractBar sym q = some b) : b.symbol = pyUpper sym := by
  obtain ⟨d, o, hi, lo, cl, vo⟩ := q
  cases d <;> cases o <;> cases hi <;> cases lo <;> cases cl <;> cases vo <;>
    simp_all [extractBar]
  subst h
  rfl

/-- The spec-side row predicate agrees definitionally with extraction
after coercion. -/
theorem validBar_eq_extract (sym : String) (r : RawRow) :
    validBar sym r = extractBar sym (coerceRow r) := rfl

/-- One step of the normalization pipeline, characterized per input row. -/
theorem normalize_cons (sym : String) (r : RawRow) (rest : List RawRow) :
    normalize sym (r :: rest) =
      match validBar sym r with
      | some b => b :: normalize sym rest
      | none => normalize sym rest := by
  rw [validBar_eq_extract]
  by_cases hnc : numComplete (coerceRow r) = true
  · have hrc := rawComplete_of_numComplete hnc
    obtain ⟨b, hb⟩ :=
      Option.isSome_iff_exists.mp (@extractBar_isSome sym (coerceRow r) hnc)
    rw [hb]
    simp [normalize, List.filter_cons, hrc, hnc, hb]
  · have hnc' : numComplete (coerceRow r) = false := by
      simpa using hnc
    have hex : extractBar sym (coerceRow r) = none := extractBar_eq_none hnc'
    rw [hex]
    cases hrc : rawComplete r <;>
      simp [normalize, List.filter_cons, hrc, hnc', hex]

/-- The two-dropna pipeline equals the one-pass keep-the-valid-rows
description. -/
theorem normalize_eq_filterMap (sym : String) (raw : List RawRow) :
    normalize sym raw = raw.filterMap (validBar sym) := by
  induction raw with
  | nil => rfl
  | cons r rest ih =>
    rw [normalize_cons, List.filterMap_cons]
    cases hv : validBar sym r <;> simp [ih]

/-- C6: normalization outputs exactly the rows whose timestamp and five
price/volume fields are present and coercible, in input order, with the
symbol uppercased in every output bar; it is a total function (never
raises); and ten raw rows of which two are invalid yield exactly eight
bars. -/
theorem normalizer_output_characterization :
    ∀ (sym : String) (raw : List RawRow),
      normalize sym raw = raw.filterMap (validBar sym) ∧
      (∀ b ∈ normalize sym raw, b.symbol = pyUpper sym) ∧
      tenRaw.length = 10 ∧
      (normalize "abc" tenRaw).length = 8 := by
  intro sym raw
  refine ⟨normalize_eq_filterMap sym raw, ?_, by decide, by decide⟩
  intro b hb
  rw [normalize_eq_filterMap] at hb
  obtain ⟨r, _, hvr⟩ := List.mem_filterMap.mp hb
  rw [validBar_eq_extract] at hvr
  exact extractBar_symbol hvr

/-- Witness for C6 at a concrete symbol and batch, with the membership
hypothesis of the uppercase clause discharged at a concrete bar. -/
theorem normalizer_output_characterization_witness :
    normalize "abc" tenRaw = tenRaw.filterMap (validBar "abc") ∧
    (upBar "ABC").symbol = pyUpper "abc" :=
  ⟨(normalizer_output_characterization "abc" tenRaw).1,
   (normalizer_output_characterization "abc" tenRaw).2.1 (upBar "ABC")
     (by decide)⟩

/-! ## C5 — retry exhaustion -/

/-- C5: a provider failing every attempt makes the fetch return an empty
result — not an exception — after exactly `max_retries = 3` attempts,
sleeping `2 ** attempt` seconds between consecutive attempts
(non-decreasing); a first attempt that succeeds with an empty response is
not retried and yields an empty result immediately. -/
theorem fetch_retry_and_empty_response :
    ∀ (provider : Nat → Attempt) (sym : String),
      ((∀ i, provider i = Attempt.err) →
        (fetch_historical_ohlcv provider sym).bars = [] ∧
        (fetch_historical_ohlcv provider sym).attempts = max_retries ∧
        max_retries = 3 ∧
        (fetch_historical_ohlcv provider sym).sleeps = [2 ^ 0, 2 ^ 1] ∧
        List.Chain' (fun a b => a ≤ b)
          (fetch_historical_ohlcv provider sym).sleeps) ∧
      (provider 0 = Attempt.ok [] →
        (fetch_historical_ohlcv provider sym).attempts = 1 ∧
        (fetch_historical_ohlcv provider sym).sleeps = [] ∧
        (fetch_historical_ohlcv provider sym).bars = []) := by
  intro provider sym
  constructor
  · intro h
    have e : download_with_retry provider 0 3 = (3, [1, 2], none) := by
      simp [download_with_retry, h 0, h 1, h 2]
    refine ⟨?_, ?_, rfl, ?_, ?_⟩ <;>
      simp [fetch_historical_ohlcv, max_retries, e]
  · intro h
    have e : download_with_retry provider 0 3 = (1, [], some []) := by
      simp [download_with_retry, h]
    refine ⟨?_, ?_, ?_⟩ <;>
      simp [fetch_historical_ohlcv, max_retries, e, normalize]

/-- Witness for C5: a concrete always-failing provider and a concrete
empty-response provider. -/
theorem fetch_retry_and_empty_response_witness :
    ((fetch_historical_ohlcv pErr "AAPL").bars = [] ∧
     (fetch_historical_ohlcv pErr "AAPL").attempts = max_retries ∧
     max_retries = 3 ∧
     (fetch_historical_ohlcv pErr "AAPL").sleeps = [2 ^ 0, 2 ^ 1] ∧
     List.Chain' (fun a b => a ≤ b)
       (fetch_historical_ohlcv pErr "AAPL").sleeps) ∧
    ((fetch_historical_ohlcv pEmpty "AAPL").attempts = 1 ∧
     (fetch_historical_ohlcv pEmpty "AAPL").sleeps = [] ∧
     (fetch_historical_ohlcv pEmpty "AAPL").bars = []) :=
  ⟨(fetch_retry_and_empty_response pErr "AAPL").1 (fun _ => rfl),
   (fetch_retry_and_empty_response pEmpty "AAPL").2 rfl⟩

/-! ## C8 — partial-failure isolation in the cycle -/

/-- The per-symbol trace entry depends only on that symbol's own fetch
outcome, not on the store state reached so far. -/
theorem processSymbol_snd (provider : String → Nat → Attempt) (s : String)
    (st : DB) (now : Nat) :
    (processSymbol provider s st now).2 = fetchBatch provider s := by
  unfold processSymbol
  cases h : fetchBatch provider s <;> rfl

/-- The cycle's trace is a pure map over the symbol list: every symbol is
processed, in the given order, with an outcome independent of the other
symbols' failures. -/
theorem job_trace_eq (provider : String → Nat → Attempt)
    (symbols : List String) (now : Nat) :
    ∀ st : DB, (job_fetch_and_store provider symbols st now).2
      = symbols.map (fun s => (s, fetchBatch provider s)) := by
  induction symbols with
  | nil => intro st; rfl
  | cons s rest ih =>
    intro st
    simp only [job_fetch_and_store, List.map_cons]
    rw [processSymbol_snd, ih]

/-- C8: the ingestion cycle processes its symbols sequentially in the
given order; it is a total function (no error propagates), each symbol's
trace entry is determined by its own fetch alone, and in the concrete
cycle over ["A", "B", "C"] where "B" fails every attempt, "A" and "C"
are still fetched, normalized and handed to the upsert stage. -/
theorem job_partial_failure_isolation :
    ∀ (provider : String → Nat → Attempt) (symbols : List String)
      (st : DB) (now : Nat),
      (job_fetch_and_store provider symbols st now).2
        = symbols.map (fun s => (s, fetchBatch provider s)) ∧
      (job_fetch_and_store exampleEnv ["A", "B", "C"] freshDB 0).2
        = [("A", some [upBar "A"]), ("B", none), ("C", some [upBar "C"])] := by
  intro provider symbols st now
  exact ⟨job_trace_eq provider symbols now st, by decide⟩

/-! ## C7 — query ordering, truncation, empty result -/

/-- C7: the history query returns the stored bars of the requested symbol
in strictly descending timestamp order, truncated to the `limit`
most-recent rows (every matching stored row it leaves out is older than
every row it returns), returns an empty list — not an error — when the
symbol has no stored bars, and on the concrete store with timestamps
1 < 2 < 3 for "X" returns exactly the rows for 3 and 2, in that order. -/
theorem query_history_desc_truncated :
    ∀ (st : DB) (sym : String) (limit : Nat),
      KeysDistinct st.ohlcv → st.dbUp = true →
      (List.Pairwise (fun a b : OutRow => b.dt < a.dt)
          (query_ohlcv st sym limit) ∧
       (query_ohlcv st sym limit).length
         = min limit
             ((st.ohlcv.filter (fun r => r.symbol == pyUpper sym)).length) ∧
       (st.ohlcv.filter (fun r => r.symbol == pyUpper sym) = [] →
         query_ohlcv st sym limit = []) ∧
       (∀ x ∈ query_ohlcv st sym limit, ∀ y ∈ st.ohlcv,
         y.symbol = pyUpper sym →
         (∀ z ∈ query_ohlcv st sym limit, z.dt ≠ y.dt) →
         y.dt < x.dt) ∧
       query_ohlcv exampleStore "X" 2
         = [rowToDict (rowX 3), rowToDict (rowX 2)]) := by
  intro st sym limit hkd hup
  have hq : query_ohlcv st sym limit
      = (((st.ohlcv.filter (fun r => r.symbol == pyUpper sym)).insertionSort
          dtGe).take limit).map rowToDict := by
    simp [query_ohlcv, hup]
  have hsort : List.Pairwise dtGe
      ((st.ohlcv.filter (fun r => r.symbol == pyUpper sym)).insertionSort
        dtGe) :=
    List.sorted_insertionSort dtGe _
  have hnef : List.Pairwise (fun a b : StoredRow => a.dt ≠ b.dt)
      (st.ohlcv.filter (fun r => r.symbol == pyUpper sym)) := by
    refine List.Pairwise.imp_of_mem ?_
      (List.Pairwise.filter (fun r => r.symbol == pyUpper sym) hkd)
    intro a b ha hb hab
    have hsa : a.symbol = pyUpper sym := by
      have := (List.mem_filter.mp ha).2
      simpa using this
    have hsb : b.symbol = pyUpper sym := by
      have := (List.mem_filter.mp hb).2
      simpa using this
    exact hab (hsa.trans hsb.symm)
  have hnes : List.Pairwise (fun a b : StoredRow => a.dt ≠ b.dt)
      ((st.ohlcv.filter (fun r => r.symbol == pyUpper sym)).insertionSort
        dtGe) :=
    ((List.perm_insertionSort dtGe _).pairwise_iff
      (fun h => Ne.symm h)).mpr hnef
  have hstrict : List.Pairwise (fun a b : StoredRow => b.dt < a.dt)
      ((st.ohlcv.filter (fun r => r.symbol == pyUpper sym)).insertionSort
        dtGe) :=
    (hsort.and hnes).imp
      (fun hab => Nat.lt_of_le_of_ne hab.1 (Ne.symm hab.2))
  refine ⟨?_, ?_, ?_, ?_, by decide⟩
  · rw [hq]
    exact List.pairwise_map.mpr
      (List.Pairwise.sublist (List.take_sublist _ _) hstrict)
  · rw [hq, List.length_map, List.length_take,
        (List.perm_insertionSort dtGe _).length_eq]
  · intro hmt
    rw [hq, hmt]
    simp
  · intro x hx y hy hysym hz
    have hx0 := hx
    rw [hq] at hx
    obtain ⟨x', hxt, hxx⟩ := List.mem_map.mp hx
    have hymem : y ∈ st.ohlcv.filter (fun r => r.symbol == pyUpper sym) :=
      List.mem_filter.mpr ⟨hy, by simp [hysym]⟩
    have hysort : y ∈
        (st.ohlcv.filter (fun r => r.symbol == pyUpper sym)).insertionSort
          dtGe :=
      (List.perm_insertionSort dtGe _).mem_iff.mpr hymem
    have hsplit :
        (st.ohlcv.filter (fun r => r.symbol == pyUpper sym)).insertionSort
            dtGe
          = ((st.ohlcv.filter
              (fun r => r.symbol == pyUpper sym)).insertionSort
                dtGe).take limit
            ++ ((st.ohlcv.filter
              (fun r => r.symbol == pyUpper sym)).insertionSort
                dtGe).drop limit :=
      (List.take_append_drop limit _).symm
    have hcross := (List.pairwise_append.mp (hsplit ▸ hsort)).2.2
    rcases List.mem_append.mp (hsplit ▸ hysort) with hyt | hyd
    · exfalso
      refine hz (rowToDict y) ?_ rfl
      rw [hq]
      exact List.mem_map_of_mem rowToDict hyt
    · have hle : dtGe x' y := hcross x' hxt y hyd
      have hne : x'.dt ≠ y.dt := by
        have hzx := hz x hx0
        rw [← hxx] at hzx
        exact hzx
      have hlt : y.dt < x'.dt := Nat.lt_of_le_of_ne hle (Ne.symm hne)
      rw [← hxx]
      exact hlt

/-- Witness for C7 at the concrete three-bar store. -/
theorem query_history_desc_truncated_witness :
    KeysDistinct exampleStore.ohlcv ∧
    query_ohlcv exampleStore "X" 2
      = [rowToDict (rowX 3), rowToDict (rowX 2)] :=
  ⟨by decide,
   (query_history_desc_truncated exampleStore "X" 2 (by decide)
     rfl).2.2.2.2⟩

end YFin
